import Mathlib

/-!
Verification development for the MAVLink-FTP client in
`src/modules/ftp/ftp_example.py`.

The Python source is shallowly embedded: machine bytes are `Nat` values
(a well-formed byte is `< 256`), byte buffers are `List Nat`, and fallible
Python code is modelled in `Except PyErr`, where `PyErr` names the Python
exception class that would be raised.  Field and function names follow the
source.
-/

set_option autoImplicit false

/-- Python exception kinds that the embedded code can raise. -/
inductive PyErr where
  | valueError      -- ValueError (range checks in the constructor, bad enum value)
  | typeError       -- TypeError (bad call or operation on a value of the wrong type)
  | indexError      -- IndexError (bytes index out of range)
  | structError     -- struct.error (unpack on a buffer of the wrong size)
  | attributeError  -- AttributeError (attribute does not exist on the object)
  | nameError       -- NameError (name read before any assignment binds it)
deriving DecidableEq, Repr

/-- Opcodes for FTP commands (class `Opcode`, lines 29-52 of the source). -/
inductive Opcode where
  | NONE
  | TERMINATE_SESSION
  | RESET_SESSION
  | LIST_DIRECTORY
  | OPEN_FILE_RO
  | READ_FILE
  | CREATE_FILE
  | WRITE_FILE
  | REMOVE_FILE
  | CREATE_DIRECTORY
  | REMOVE_DIRECTORY
  | OPEN_FILE_WO
  | TRUNCATE_FILE
  | RENAME
  | CALC_FILE_CRC32
  | BURST_READ_FILE
  | ACK_RESPONSE
  | NAK_RESPONSE
deriving DecidableEq, Repr

/-- Integer value of each opcode, as declared in the Python `IntEnum`. -/
def Opcode.toNat : Opcode → Nat
  | .NONE => 0
  | .TERMINATE_SESSION => 1
  | .RESET_SESSION => 2
  | .LIST_DIRECTORY => 3
  | .OPEN_FILE_RO => 4
  | .READ_FILE => 5
  | .CREATE_FILE => 6
  | .WRITE_FILE => 7
  | .REMOVE_FILE => 8
  | .CREATE_DIRECTORY => 9
  | .REMOVE_DIRECTORY => 10
  | .OPEN_FILE_WO => 11
  | .TRUNCATE_FILE => 12
  | .RENAME => 13
  | .CALC_FILE_CRC32 => 14
  | .BURST_READ_FILE => 15
  | .ACK_RESPONSE => 128
  | .NAK_RESPONSE => 129

/-- `Opcode(n)` in Python: returns the enumerant for a known value and
raises `ValueError` (here: `none`) otherwise. -/
def Opcode.ofNat? : Nat → Option Opcode
  | 0 => some .NONE
  | 1 => some .TERMINATE_SESSION
  | 2 => some .RESET_SESSION
  | 3 => some .LIST_DIRECTORY
  | 4 => some .OPEN_FILE_RO
  | 5 => some .READ_FILE
  | 6 => some .CREATE_FILE
  | 7 => some .WRITE_FILE
  | 8 => some .REMOVE_FILE
  | 9 => some .CREATE_DIRECTORY
  | 10 => some .REMOVE_DIRECTORY
  | 11 => some .OPEN_FILE_WO
  | 12 => some .TRUNCATE_FILE
  | 13 => some .RENAME
  | 14 => some .CALC_FILE_CRC32
  | 15 => some .BURST_READ_FILE
  | 128 => some .ACK_RESPONSE
  | 129 => some .NAK_RESPONSE
  | _ => none

/-- Error codes for FTP NAK responses (class `NakErrorCode`, lines 55-70). -/
inductive NakErrorCode where
  | NONE
  | FAIL
  | FAIL_ERRNO
  | INVALID_DATA_SIZE
  | INVALID_SESSION
  | NO_SESSIONS_AVAILABLE
  | EOF
  | UNKNOWN_CMD
  | FILE_EXISTS
  | FILE_PROTECTED
  | FILE_NOT_FOUND
deriving DecidableEq, Repr

/-- `NakErrorCode(n)` in Python: enumerant for a known value, `ValueError`
(here: `none`) otherwise. -/
def NakErrorCode.ofNat? : Nat → Option NakErrorCode
  | 0 => some .NONE
  | 1 => some .FAIL
  | 2 => some .FAIL_ERRNO
  | 3 => some .INVALID_DATA_SIZE
  | 4 => some .INVALID_SESSION
  | 5 => some .NO_SESSIONS_AVAILABLE
  | 6 => some .EOF
  | 7 => some .UNKNOWN_CMD
  | 8 => some .FILE_EXISTS
  | 9 => some .FILE_PROTECTED
  | 10 => some .FILE_NOT_FOUND
  | _ => none

/-- `CHUNK_SIZE` (line 18): max data size per chunk. -/
def CHUNK_SIZE : Nat := 239

/-- `MAX_PAYLOAD_SIZE` (line 19): max payload size for FTP commands. -/
def MAX_PAYLOAD_SIZE : Nat := 239

/-- The FTP payload record (class `FTPMessage`, lines 73-119): the seven
attributes set by `__init__`. -/
structure FTPMessage where
  seq_num : Nat
  session : Nat
  opcode : Opcode
  size : Nat
  req_opcode : Opcode
  offset : Nat
  data : List Nat
deriving DecidableEq, Repr

/-- `FTPMessage.__init__` (lines 85-119): validates every argument and
raises `ValueError` on a range violation; the `isinstance` checks are
type-level here.  On success the attributes are stored unchanged.  Note
that no check relates `size` to `len(data)`. -/
def FTPMessage.init (seq_num session : Nat) (opcode : Opcode) (size : Nat)
    (req_opcode : Opcode) (offset : Nat) (data : List Nat) :
    Except PyErr FTPMessage :=
  if seq_num > 65535 then .error .valueError
  else if session > 255 then .error .valueError
  else if size > 255 then .error .valueError
  else if offset > 4294967295 then .error .valueError
  else if data.length > MAX_PAYLOAD_SIZE then .error .valueError
  else .ok ⟨seq_num, session, opcode, size, req_opcode, offset, data⟩

/-- `FTPMessage.to_bytes` (lines 136-147): a zero-filled 251-byte buffer,
sequence as little-endian u16 at 0-1, session at 2, opcode at 3, size at 4,
req_opcode at 5, zeros at 6-7 (burst_complete, padding), offset as
little-endian u32 at 8-11, and `data` spliced in from byte 12; the bytes
after the data keep their zero fill. -/
def FTPMessage.to_bytes (m : FTPMessage) : List Nat :=
  m.seq_num % 256 :: m.seq_num / 256 % 256 ::
  m.session :: m.opcode.toNat :: m.size :: m.req_opcode.toNat :: 0 :: 0 ::
  m.offset % 256 :: m.offset / 256 % 256 ::
  m.offset / 65536 % 256 :: m.offset / 16777216 % 256 ::
  (m.data ++ List.replicate (239 - m.data.length) 0)

/-- `struct.unpack` with format `<H` (little-endian u16): requires a buffer
of exactly two bytes, otherwise `struct.error`. -/
def unpackH : List Nat → Except PyErr Nat
  | [a, b] => .ok (a + 256 * b)
  | _ => .error .structError

/-- `struct.unpack` with format `<I` (little-endian u32): requires a buffer
of exactly four bytes, otherwise `struct.error`. -/
def unpackI : List Nat → Except PyErr Nat
  | [a, b, c, d] => .ok (a + 256 * (b + 256 * (c + 256 * d)))
  | _ => .error .structError

/-- Indexing a Python bytes object: `IndexError` when out of range. -/
def liftIdx : Option Nat → Except PyErr Nat
  | some v => .ok v
  | none => .error .indexError

/-- Lift an enum lookup: an unknown value raises `ValueError`. -/
def liftOpcode : Option Opcode → Except PyErr Opcode
  | some c => .ok c
  | none => .error .valueError

/-- The body of `FTPMessage.from_bytes` (lines 121-134) expressed over the
parts of the buffer it actually reads, in evaluation order: bytes 0-1
(`<H` unpack), bytes 2-5 (indexing plus the two `Opcode` lookups), bytes
8-11 (`<I` unpack), and the tail from byte 12 of which `size` bytes are
taken as `data` (a Python slice silently truncates).  The result is passed
to the validating constructor. -/
def decodeParts (b01 : List Nat) (b2 b3 b4 b5 : Option Nat)
    (offBytes tail12 : List Nat) : Except PyErr FTPMessage :=
  Except.bind (unpackH b01) fun seq_num =>
  Except.bind (liftIdx b2) fun session =>
  Except.bind (liftIdx b3) fun ob =>
  Except.bind (liftOpcode (Opcode.ofNat? ob)) fun opcode =>
  Except.bind (liftIdx b4) fun size =>
  Except.bind (liftIdx b5) fun rb =>
  Except.bind (liftOpcode (Opcode.ofNat? rb)) fun req_opcode =>
  Except.bind (unpackI offBytes) fun offset =>
  FTPMessage.init seq_num session opcode size req_opcode offset
    (tail12.take size)

/-- `FTPMessage.from_bytes` (lines 121-134): decode a raw buffer. -/
def FTPMessage.from_bytes (buf : List Nat) : Except PyErr FTPMessage :=
  decodeParts (buf.take 2) buf[2]? buf[3]? buf[4]? buf[5]?
    ((buf.drop 8).take 4) (buf.drop 12)

/-- The binding state of the module-level global `response_payload`.
Inside `receive_ftp_message` the name `response_payload` (line 177) is
never assigned, so it resolves to this global; the only assignment to it
in the whole module is the tuple unpacking at line 216, which stores the
second component of the function's own result -- an `FTPMessage` object or
`None`, never a bytes object. -/
inductive GlobalBinding where
  | unbound                    -- before line 216 completes (so at the first call)
  | boundNone                  -- line 216 stored None (timeout at the open step)
  | boundMsg (m : FTPMessage)  -- line 216 stored a decoded FTPMessage
deriving Repr

/-- Line 177 as written: `FTPMessage.from_bytes(response_payload)` applied
to the module global, not to the frame just received.  At the first call
the global is unbound, so reading the name raises `NameError`; afterwards
it can only hold `None` or an `FTPMessage` object, and `from_bytes` then
raises `TypeError` at its first subscript `response_payload[0:2]` (neither
value is subscriptable as bytes).  The received frame is never decoded. -/
def from_bytes_global : GlobalBinding → Except PyErr FTPMessage
  | .unbound => .error .nameError
  | .boundNone => .error .typeError
  | .boundMsg _ => .error .typeError

/-- `receive_ftp_message` (lines 164-192).  The transport receive
(`vehicle.recv_match` with a timeout) is abstracted as its outcome `resp`:
`none` when no frame arrived within the timeout, `some raw` for the raw
payload of the received frame; `response_payload` is the binding state of
the module global of that name.  On timeout the function returns
`(False, None)` before line 177 runs.  When a frame arrives, line 177
evaluates `FTPMessage.from_bytes(response_payload)` on the global
(`from_bytes_global`), which always raises, so the remaining lines
179-192 -- the sequence check, the `NakErrorCode` classification of a
non-ACK opcode from data byte 0, and the `FAIL_ERRNO` branch that reads
the nonexistent attribute `return_payload.payload` (the attribute is
named `data`, hence `AttributeError`) -- are kept here as written but are
unreachable. -/
def receive_ftp_message (seq_num : Nat) (resp : Option (List Nat))
    (response_payload : GlobalBinding) :
    Except PyErr (Bool × Option FTPMessage) :=
  match resp with
  | none => .ok (false, none)
  | some _raw =>
    match from_bytes_global response_payload with
    | .error e => .error e
    | .ok return_payload =>
      if return_payload.seq_num ≠ seq_num + 1 then .ok (false, some return_payload)
      else if return_payload.opcode ≠ Opcode.ACK_RESPONSE then
        match liftIdx return_payload.data[0]? with
        | .error e => .error e
        | .ok code =>
          match NakErrorCode.ofNat? code with
          | none => .error .valueError
          | some err =>
            if err = NakErrorCode.FAIL_ERRNO then .error .attributeError
            else .ok (false, some return_payload)
      else .ok (true, some return_payload)

/-- The sequence-counter update after an accepted exchange (lines 223 and
247): `seq_num = response.seq_num + 1`, with no modular reduction. -/
def advance_seq (response : FTPMessage) : Nat :=
  response.seq_num + 1

/-- The chunk request built at the top of the read loop (lines 234-242):
opcode `READ_FILE`, `size = CHUNK_SIZE`, empty data. -/
def build_chunk_request (seq_num session offset : Nat) : Except PyErr FTPMessage :=
  FTPMessage.init seq_num session Opcode.READ_FILE CHUNK_SIZE Opcode.NONE offset []

/-- The loop-carried mutable state of the chunk read loop (lines 226-250):
the sequence counter, the file offset, and the accumulated file bytes. -/
structure LoopState where
  seq_num : Nat
  offset : Nat
  file_data : List Nat
deriving DecidableEq, Repr

/-- How a run of the read loop ends. -/
inductive LoopOutcome where
  | done (st : LoopState)             -- the while condition became false
  | crashed (st : LoopState) (e : PyErr)  -- a Python exception escaped the loop
  | starved (st : LoopState)          -- the supplied response script ran out
deriving Repr

/-- The chunk read loop (lines 233-250), driven by a script of transport
outcomes, one per iteration (`none` = timeout).  `g` is the binding state
of the global `response_payload`, which the loop never reassigns (line 245
binds the distinct name `chunk_response_payload`).  Each iteration builds
and sends a chunk request (a `ValueError` from the constructor would
escape), receives, then unconditionally runs lines 247-250: it
dereferences the returned message (`AttributeError` when the receive
returned `None`), advances `seq_num` to the response sequence plus one,
appends the response data to `file_data`, and advances `offset`; the loop
continues only if the receive reported success. -/
def read_loop (g : GlobalBinding) (session : Nat) (st : LoopState) :
    List (Option (List Nat)) → LoopOutcome
  | [] => .starved st
  | resp :: rest =>
    match build_chunk_request st.seq_num session st.offset with
    | .error e => .crashed st e
    | .ok _request =>
      match receive_ftp_message st.seq_num resp g with
      | .error e => .crashed st e
      | .ok (chunk_read_done, payloadOpt) =>
        match payloadOpt with
        | none => .crashed st .attributeError
        | some chunk_response_payload =>
          let st' : LoopState :=
            ⟨advance_seq chunk_response_payload,
             st.offset + chunk_response_payload.data.length,
             st.file_data ++ chunk_response_payload.data⟩
          if chunk_read_done then read_loop g session st' rest else .done st'

/-- The keyword arguments supplied to one call of the `FTPMessage`
constructor.  `none` means the keyword was not supplied; `unexpected`
lists supplied keyword names that are not parameters of `__init__`. -/
structure CallKwargs where
  seq_num : Option Nat
  session : Option Nat
  opcode : Option Opcode
  size : Option Nat
  req_opcode : Option Opcode
  offset : Option Nat
  data : Option (List Nat)
  unexpected : List String
deriving Repr

/-- Python call semantics for `FTPMessage(...)` with keyword arguments: an
unexpected keyword or a missing required parameter raises `TypeError`
before the body runs; otherwise the validating `__init__` body runs. -/
def FTPMessage.call (k : CallKwargs) : Except PyErr FTPMessage :=
  if k.unexpected ≠ [] then .error .typeError
  else
    match k.seq_num, k.session, k.opcode, k.size, k.req_opcode, k.offset, k.data with
    | some a, some b, some c, some d, some e, some f, some g =>
      FTPMessage.init a b c d e f g
    | _, _, _, _, _, _, _ => .error .typeError

/-- The terminate-session construction (lines 256-264), exactly as
written: keywords `seq_num`, `session`, `opcode=TERMINATE_SESSION`,
`size=0`, `req_opcode=NONE`, `offset=0`, and `payload=b""` -- the last is
not a parameter of `__init__` (the parameter is named `data`), so `data`
is missing and `payload` is unexpected. -/
def terminate_request (seq_num session : Nat) : Except PyErr FTPMessage :=
  FTPMessage.call ⟨some seq_num, some session, some Opcode.TERMINATE_SESSION,
    some 0, some Opcode.NONE, some 0, none, ["payload"]⟩

/-! Helper lemmas about the embedded definitions. -/

lemma Opcode.ofNat?_toNat (c : Opcode) : Opcode.ofNat? c.toNat = some c := by
  cases c <;> rfl

lemma unpackI_ok_length (l : List Nat) (v : Nat) (h : unpackI l = .ok v) :
    l.length = 4 := by
  unfold unpackI at h
  split at h
  · rename_i a b c d
    rfl
  · cases h

lemma FTPMessage.init_eq_ok (a b d g : Nat) (c e : Opcode) (l : List Nat)
    (h1 : a ≤ 65535) (h2 : b ≤ 255) (h3 : d ≤ 255) (h4 : g ≤ 4294967295)
    (h5 : l.length ≤ 239) :
    FTPMessage.init a b c d e g l = .ok ⟨a, b, c, d, e, g, l⟩ := by
  unfold FTPMessage.init MAX_PAYLOAD_SIZE
  rw [if_neg (by omega), if_neg (by omega), if_neg (by omega), if_neg (by omega),
    if_neg (by omega)]

lemma FTPMessage.init_ok_inv (a b d g : Nat) (c e : Opcode) (l : List Nat)
    (m : FTPMessage) (h : FTPMessage.init a b c d e g l = .ok m) :
    a ≤ 65535 ∧ b ≤ 255 ∧ d ≤ 255 ∧ g ≤ 4294967295 ∧ l.length ≤ 239 ∧
      m = ⟨a, b, c, d, e, g, l⟩ := by
  unfold FTPMessage.init MAX_PAYLOAD_SIZE at h
  split_ifs at h with h1 h2 h3 h4 h5
  all_goals try cases h
  exact ⟨by omega, by omega, by omega, by omega, by omega, rfl⟩

lemma except_bind_ok {ε α β : Type} {x : Except ε α} {f : α → Except ε β}
    {b : β} (h : x.bind f = .ok b) : ∃ a, x = .ok a ∧ f a = .ok b := by
  cases x with
  | error e => simp [Except.bind] at h
  | ok a => exact ⟨a, rfl, by simpa [Except.bind] using h⟩

lemma FTPMessage.from_bytes_ok_inv (buf : List Nat) (m : FTPMessage)
    (h : FTPMessage.from_bytes buf = .ok m) :
    12 ≤ buf.length ∧ m.data = (buf.drop 12).take m.size := by
  unfold FTPMessage.from_bytes decodeParts at h
  obtain ⟨s, hu, h⟩ := except_bind_ok h
  obtain ⟨session, h2, h⟩ := except_bind_ok h
  obtain ⟨ob, h3, h⟩ := except_bind_ok h
  obtain ⟨opcode, hop, h⟩ := except_bind_ok h
  obtain ⟨size, h4, h⟩ := except_bind_ok h
  obtain ⟨rb, h5, h⟩ := except_bind_ok h
  obtain ⟨req_opcode, hrq, h⟩ := except_bind_ok h
  obtain ⟨offset, hoff, h⟩ := except_bind_ok h
  have hlen4 := unpackI_ok_length _ _ hoff
  rw [List.length_take, List.length_drop] at hlen4
  obtain ⟨-, -, -, -, -, hm⟩ := FTPMessage.init_ok_inv _ _ _ _ _ _ _ _ h
  subst hm
  exact ⟨by omega, rfl⟩

set_option maxRecDepth 100000

/-! Concrete frames used in the scenario theorems.  `chunk100` is the
single 100-byte chunk of the concrete scenario in the spec; the response
buffers are built with the codec itself. -/

/-- The 100 content bytes of the concrete single-chunk scenario. -/
def chunk100 : List Nat := List.replicate 100 7

/-- ACK response to the first chunk request: sequence 3, session 3,
declared size 100, carrying `chunk100`. -/
def ack100buf : List Nat :=
  FTPMessage.to_bytes ⟨3, 3, Opcode.ACK_RESPONSE, 100, Opcode.READ_FILE, 0, chunk100⟩

/-- NAK response with error code 6 (`EOF`) at sequence 5: the end-of-file
signal after the single chunk. -/
def nakEofBuf : List Nat :=
  FTPMessage.to_bytes ⟨5, 3, Opcode.NAK_RESPONSE, 1, Opcode.READ_FILE, 100, [6]⟩

/-- NAK response with error code 1 (`FAIL`) at sequence 3. -/
def nakFailBuf : List Nat :=
  FTPMessage.to_bytes ⟨3, 3, Opcode.NAK_RESPONSE, 1, Opcode.READ_FILE, 0, [1]⟩

/-- NAK response with error code 6 (`EOF`) at sequence 3: an immediate
end-of-file answer to the first chunk request. -/
def nakEofSeq3Buf : List Nat :=
  FTPMessage.to_bytes ⟨3, 3, Opcode.NAK_RESPONSE, 1, Opcode.READ_FILE, 0, [6]⟩

/-- NAK response with error code 2 (`FAIL_ERRNO`) at sequence 3, carrying
OS error number 13 in data byte 1. -/
def nakErrnoBuf : List Nat :=
  FTPMessage.to_bytes ⟨3, 3, Opcode.NAK_RESPONSE, 2, Opcode.READ_FILE, 0, [2, 13]⟩

/-- ACK response to the open request: sequence 1, session 3, size 4,
payload the little-endian file size 100. -/
def openAckBuf : List Nat :=
  FTPMessage.to_bytes ⟨1, 3, Opcode.ACK_RESPONSE, 4, Opcode.OPEN_FILE_RO, 0, [100, 0, 0, 0]⟩

/-- Claim C2: reassembly never happens.  The moment the open ACK arrives,
line 177 reads the unbound global `response_payload` and the receive step
raises `NameError`, so the open exchange never succeeds; and the read
loop itself, fed the claimed chunk script, crashes on the first arriving
frame with nothing accumulated -- the final buffer is never the 100-byte
concatenation of the chunks. -/
theorem open_ack_raises_no_reassembly :
    receive_ftp_message 0 (some openAckBuf) GlobalBinding.unbound
        = .error PyErr.nameError ∧
      read_loop GlobalBinding.unbound 3 ⟨2, 0, []⟩ [some ack100buf, some nakEofBuf]
        = .crashed ⟨2, 0, []⟩ PyErr.nameError := by
  exact ⟨by rfl, by rfl⟩

/-- Claim C3: no NAK is ever classified.  A FAIL NAK answering a chunk
request crashes the receive step at line 177 (`NameError` on the unbound
global, `TypeError` once the global holds a non-bytes value) before its
error code is read, so no Failed outcome is ever produced -- and an EOF
NAK crashes identically, so EOF is not a successful termination signal in
an actual run either. -/
theorem nak_never_classified :
    read_loop GlobalBinding.unbound 3 ⟨2, 0, []⟩ [some nakFailBuf]
        = .crashed ⟨2, 0, []⟩ PyErr.nameError ∧
      (∀ m, read_loop (GlobalBinding.boundMsg m) 3 ⟨2, 0, []⟩ [some nakFailBuf]
        = .crashed ⟨2, 0, []⟩ PyErr.typeError) ∧
      read_loop GlobalBinding.unbound 3 ⟨2, 0, []⟩ [some nakEofSeq3Buf]
        = .crashed ⟨2, 0, []⟩ PyErr.nameError := by
  exact ⟨by rfl, fun m => by rfl, by rfl⟩

/-- Claim C5: a timeout in the read loop is not reported as a Timeout
outcome carrying the accumulated bytes: the receive returns
`(False, None)` and line 247 dereferences `None`
(`chunk_response_payload.seq_num`), raising `AttributeError`; and the
premise of prior successful chunks is unsatisfiable anyway, since the
chunk ACK that should have been accumulated itself crashes the receive at
line 177. -/
theorem read_loop_timeout_crashes :
    read_loop GlobalBinding.unbound 3 ⟨2, 0, []⟩ [none]
        = .crashed ⟨2, 0, []⟩ PyErr.attributeError ∧
      read_loop GlobalBinding.unbound 3 ⟨2, 0, []⟩ [some ack100buf, none]
        = .crashed ⟨2, 0, []⟩ PyErr.nameError := by
  exact ⟨by rfl, by rfl⟩

/-- Claim C6: the terminate-session construction at lines 256-264 passes
the keyword `payload` instead of the parameter name `data`, so the call
raises `TypeError` for every sequence number and session id: the terminate
frame is never constructed, hence never sent. -/
theorem terminate_request_type_error (seq_num session : Nat) :
    terminate_request seq_num session = .error PyErr.typeError := by
  rfl

/-- Claim C9: the OS error number of a FAIL_ERRNO NAK is never read nor
reported: when the NAK arrives, line 177 raises `NameError` (first call,
global unbound) or `TypeError` (the global holds None or a previous
FTPMessage, neither subscriptable as bytes) before the frame is decoded,
so the classification at lines 183-190 -- whose FAIL_ERRNO branch would
itself raise `AttributeError` by reading the nonexistent attribute
`payload` -- never runs. -/
theorem fail_errno_never_reported :
    receive_ftp_message 2 (some nakErrnoBuf) GlobalBinding.unbound
        = .error PyErr.nameError ∧
      receive_ftp_message 2 (some nakErrnoBuf) GlobalBinding.boundNone
        = .error PyErr.typeError ∧
      (∀ m, receive_ftp_message 2 (some nakErrnoBuf) (GlobalBinding.boundMsg m)
        = .error PyErr.typeError) := by
  exact ⟨by rfl, by rfl, fun m => by rfl⟩

/-- Claim C4, counterexample: the counter update written at lines 223 and
247 maps a response carrying sequence 65535 to 65536 with no modular
reduction, whereas `(65535 + 1) mod 65536 = 0`; building the next chunk
request with the updated counter raises `ValueError` instead of stamping
sequence 0. -/
theorem seq_wrap_crashes :
    advance_seq ⟨65535, 3, Opcode.ACK_RESPONSE, 0, Opcode.READ_FILE, 0, []⟩ = 65536 ∧
      (65535 + 1) % 65536 = 0 ∧
      build_chunk_request 65536 3 0 = .error PyErr.valueError := by
  exact ⟨by rfl, by decide, by rfl⟩

/-- Claim C4, amended: for an accepted response whose sequence `s` is
below 65535 the next outgoing chunk request does carry `s + 1`, which then
coincides with `(s + 1) mod 65536`; only the wrap case deviates. -/
theorem seq_advance_no_wrap (resp : FTPMessage) (session offset : Nat)
    (h : resp.seq_num < 65535) (hs : session ≤ 255) (ho : offset ≤ 4294967295) :
    advance_seq resp % 65536 = advance_seq resp ∧
      build_chunk_request (advance_seq resp) session offset =
        .ok ⟨resp.seq_num + 1, session, Opcode.READ_FILE, 239, Opcode.NONE, offset, []⟩ := by
  unfold advance_seq build_chunk_request CHUNK_SIZE
  refine ⟨by omega, ?_⟩
  exact FTPMessage.init_eq_ok _ _ _ _ _ _ _ (by omega) hs (by omega) ho (by simp)

/-- Witness for the amended claim C4 at a concrete accepted response. -/
theorem seq_advance_no_wrap_witness :
    advance_seq ⟨7, 3, Opcode.ACK_RESPONSE, 0, Opcode.READ_FILE, 0, []⟩ % 65536
        = advance_seq ⟨7, 3, Opcode.ACK_RESPONSE, 0, Opcode.READ_FILE, 0, []⟩ ∧
      build_chunk_request
          (advance_seq ⟨7, 3, Opcode.ACK_RESPONSE, 0, Opcode.READ_FILE, 0, []⟩) 3 0 =
        .ok ⟨8, 3, Opcode.READ_FILE, 239, Opcode.NONE, 0, []⟩ :=
  seq_advance_no_wrap ⟨7, 3, Opcode.ACK_RESPONSE, 0, Opcode.READ_FILE, 0, []⟩ 3 0
    (by decide) (by decide) (by decide)

/-- Claim C1, counterexample: the constructor accepts `size = 239` with
empty `data` (this is exactly the chunk request the read loop sends), but
decoding its encoding yields `data` equal to the 239 zero fill bytes, not
the empty payload, so `from_bytes(to_bytes(f))` differs from `f` in the
`data` field. -/
theorem read_request_roundtrip_fails :
    FTPMessage.init 0 0 Opcode.READ_FILE 239 Opcode.NONE 0 []
        = .ok ⟨0, 0, Opcode.READ_FILE, 239, Opcode.NONE, 0, []⟩ ∧
      FTPMessage.from_bytes
          (FTPMessage.to_bytes ⟨0, 0, Opcode.READ_FILE, 239, Opcode.NONE, 0, []⟩)
        = .ok ⟨0, 0, Opcode.READ_FILE, 239, Opcode.NONE, 0, List.replicate 239 0⟩ ∧
      (List.replicate 239 0 : List Nat) ≠ [] := by
  exact ⟨by rfl, by rfl, by decide⟩

/-- Claim C1, amended: for every constructor-accepted message that also
satisfies `size = len(data)` (a condition the constructor does not check),
decoding the encoded frame returns the message unchanged in every field. -/
theorem from_bytes_to_bytes_of_size_eq (f : FTPMessage)
    (hacc : FTPMessage.init f.seq_num f.session f.opcode f.size f.req_opcode
        f.offset f.data = .ok f)
    (hsize : f.size = f.data.length) :
    FTPMessage.from_bytes f.to_bytes = .ok f := by
  obtain ⟨s, b, c, d, e, o, l⟩ := f
  simp only at hacc hsize
  obtain ⟨h1, h2, h3, h4, h5, -⟩ := FTPMessage.init_ok_inv _ _ _ _ _ _ _ _ hacc
  have e01 : (FTPMessage.to_bytes ⟨s, b, c, d, e, o, l⟩).take 2
      = [s % 256, s / 256 % 256] := rfl
  have e2 : (FTPMessage.to_bytes ⟨s, b, c, d, e, o, l⟩)[2]? = some b := rfl
  have e3 : (FTPMessage.to_bytes ⟨s, b, c, d, e, o, l⟩)[3]? = some c.toNat := rfl
  have e4 : (FTPMessage.to_bytes ⟨s, b, c, d, e, o, l⟩)[4]? = some d := rfl
  have e5 : (FTPMessage.to_bytes ⟨s, b, c, d, e, o, l⟩)[5]? = some e.toNat := rfl
  have e8 : ((FTPMessage.to_bytes ⟨s, b, c, d, e, o, l⟩).drop 8).take 4
      = [o % 256, o / 256 % 256, o / 65536 % 256, o / 16777216 % 256] := rfl
  have e12 : (FTPMessage.to_bytes ⟨s, b, c, d, e, o, l⟩).drop 12
      = l ++ List.replicate (239 - l.length) 0 := rfl
  unfold FTPMessage.from_bytes
  rw [e01, e2, e3, e4, e5, e8, e12]
  simp only [decodeParts, unpackH, unpackI, liftIdx, liftOpcode,
    Opcode.ofNat?_toNat, Except.bind]
  have hs2 : s % 256 + 256 * (s / 256 % 256) = s := by omega
  have ho2 : o % 256 + 256 * (o / 256 % 256 + 256 * (o / 65536 % 256
      + 256 * (o / 16777216 % 256))) = o := by omega
  have hl : (l ++ List.replicate (239 - l.length) 0).take d = l := by
    rw [hsize, List.take_left]
  rw [hs2, ho2, hl]
  exact FTPMessage.init_eq_ok _ _ _ _ _ _ _ h1 h2 h3 h4 h5

/-- Witness for the amended claim C1 at a concrete accepted message with
`size = len(data) = 3`. -/
theorem from_bytes_to_bytes_of_size_eq_witness :
    FTPMessage.from_bytes
        (FTPMessage.to_bytes ⟨1, 2, Opcode.OPEN_FILE_RO, 3, Opcode.NONE, 4, [9, 8, 7]⟩)
      = .ok ⟨1, 2, Opcode.OPEN_FILE_RO, 3, Opcode.NONE, 4, [9, 8, 7]⟩ :=
  from_bytes_to_bytes_of_size_eq ⟨1, 2, Opcode.OPEN_FILE_RO, 3, Opcode.NONE, 4, [9, 8, 7]⟩
    (by rfl) (by rfl)

/-- Claim C7, counterexample: the constructor accepts `size = 1` together
with empty `data`, producing a message in which `size` is not the number
of payload bytes; `__init__` never compares the two. -/
theorem init_accepts_size_mismatch :
    FTPMessage.init 0 0 Opcode.NONE 1 Opcode.NONE 0 []
        = .ok ⟨0, 0, Opcode.NONE, 1, Opcode.NONE, 0, []⟩ ∧
      (1 : Nat) ≠ ([] : List Nat).length := by
  exact ⟨by rfl, by decide⟩

/-- Claim C7, amended: the invariant `size = len(data)` does hold for
every message `from_bytes` returns from a buffer that is long enough
(length at least 12 + size); constructor-built messages need not satisfy
it. -/
theorem decoded_size_matches_data (buf : List Nat) (m : FTPMessage)
    (h : FTPMessage.from_bytes buf = .ok m) (hlen : 12 + m.size ≤ buf.length) :
    m.size = m.data.length := by
  obtain ⟨h12, hdata⟩ := FTPMessage.from_bytes_ok_inv buf m h
  rw [hdata, List.length_take, List.length_drop]
  omega

/-- Witness for the amended claim C7 on a 17-byte buffer declaring
size 5. -/
theorem decoded_size_matches_data_witness :
    (5 : Nat) = ([1, 2, 3, 4, 5] : List Nat).length :=
  decoded_size_matches_data [0, 0, 0, 0, 5, 0, 0, 0, 0, 0, 0, 0, 1, 2, 3, 4, 5]
    ⟨0, 0, Opcode.NONE, 5, Opcode.NONE, 0, [1, 2, 3, 4, 5]⟩ (by rfl) (by decide)

/-- Claim C8, counterexample: a 13-byte buffer whose size byte is 5 has a
length strictly between 12 and 12 + size, yet `from_bytes` does not fail:
the Python slice silently truncates and a message with one data byte is
returned. -/
theorem from_bytes_truncated_success :
    FTPMessage.from_bytes [0, 0, 0, 0, 5, 0, 0, 0, 0, 0, 0, 0, 42]
        = .ok ⟨0, 0, Opcode.NONE, 5, Opcode.NONE, 0, [42]⟩ ∧
      12 < ([0, 0, 0, 0, 5, 0, 0, 0, 0, 0, 0, 0, 42] : List Nat).length ∧
      ([0, 0, 0, 0, 5, 0, 0, 0, 0, 0, 0, 0, 42] : List Nat).length < 12 + 5 := by
  exact ⟨by rfl, by decide, by decide⟩

/-- Claim C8, amended: decoding any buffer shorter than 12 bytes fails
(in particular a 10-byte buffer), but a buffer of length between 12 and
12 + size does not fail on that account: whenever `from_bytes` succeeds
the data was truncated to `min size (length - 12)` bytes. -/
theorem from_bytes_short_and_truncation (buf : List Nat) :
    (buf.length < 12 → ∃ err, FTPMessage.from_bytes buf = .error err) ∧
      (∀ m, FTPMessage.from_bytes buf = .ok m →
        m.data.length = min m.size (buf.length - 12)) := by
  constructor
  · intro hlt
    cases hfb : FTPMessage.from_bytes buf with
    | error e => exact ⟨e, rfl⟩
    | ok m => exact absurd (FTPMessage.from_bytes_ok_inv buf m hfb).1 (by omega)
  · intro m hm
    obtain ⟨h12, hdata⟩ := FTPMessage.from_bytes_ok_inv buf m hm
    rw [hdata, List.length_take, List.length_drop]

/-- Witness for the amended claim C8: decoding a 10-byte buffer fails. -/
theorem from_bytes_short_and_truncation_witness :
    ∃ err, FTPMessage.from_bytes [0, 0, 0, 0, 0, 0, 0, 0, 0, 0] = .error err :=
  (from_bytes_short_and_truncation [0, 0, 0, 0, 0, 0, 0, 0, 0, 0]).1 (by decide)

/-- Claim C10: `from_bytes` never reads bytes 6 (burst_complete) and 7
(padding): two equal-length buffers that agree everywhere except possibly
at those two indices decode to the same result. -/
theorem from_bytes_ignores_reserved_bytes (b1 b2 : List Nat)
    (hlen : b1.length = b2.length)
    (hag : ∀ i, i < b1.length → i ≠ 6 → i ≠ 7 → b1[i]? = b2[i]?) :
    FTPMessage.from_bytes b1 = FTPMessage.from_bytes b2 := by
  have hall : ∀ i, i ≠ 6 → i ≠ 7 → b1[i]? = b2[i]? := by
    intro i h6 h7
    by_cases hi : i < b1.length
    · exact hag i hi h6 h7
    · rw [List.getElem?_eq_none (by omega), List.getElem?_eq_none (by omega)]
  have hdrop : b1.drop 8 = b2.drop 8 := by
    apply List.ext_getElem?
    intro i
    rw [List.getElem?_drop, List.getElem?_drop]
    exact hall (8 + i) (by omega) (by omega)
  have htake : b1.take 2 = b2.take 2 := by
    apply List.ext_getElem?
    intro i
    rw [List.getElem?_take, List.getElem?_take]
    by_cases hi : i < 2
    · rw [if_pos hi, if_pos hi]
      exact hall i (by omega) (by omega)
    · rw [if_neg hi, if_neg hi]
  have hd12 : b1.drop 12 = b2.drop 12 := by
    have h4 : (b1.drop 8).drop 4 = (b2.drop 8).drop 4 := by rw [hdrop]
    rw [List.drop_drop] at h4
    rw [List.drop_drop] at h4
    simpa using h4
  have ht4 : (b1.drop 8).take 4 = (b2.drop 8).take 4 := by rw [hdrop]
  unfold FTPMessage.from_bytes
  rw [htake, hall 2 (by omega) (by omega), hall 3 (by omega) (by omega),
    hall 4 (by omega) (by omega), hall 5 (by omega) (by omega), ht4, hd12]

/-- Witness for claim C10: two 12-byte buffers differing exactly in bytes
6 and 7 decode identically. -/
theorem from_bytes_ignores_reserved_bytes_witness :
    FTPMessage.from_bytes [0, 0, 0, 0, 0, 0, 0, 0, 0, 0, 0, 0]
      = FTPMessage.from_bytes [0, 0, 0, 0, 0, 0, 9, 9, 0, 0, 0, 0] :=
  from_bytes_ignores_reserved_bytes _ _ (by decide) (by decide)
